import Mathlib

/-!
Verification of the task lease manager and feature store of the
`nyoworks` project-management CLI (`src/cli/nyoworks.py`).

The CLI keeps its whole state in one JSON document. The parts the
claims are about are the lease table `task_locks` (mapping task id to
a lock record with fields `task_id`, `agent_role`, `claimed_at`,
`expires_at`) and the list `enabled_features`. We embed those parts of
the state and the relevant command branches of `cmd_task`,
`cmd_feature` and `save_state` as pure Lean functions. Timestamps
(`datetime.now()` values) are modelled as natural numbers counting
minutes; the lease duration `timedelta(minutes=30)` becomes `+ 30`.
Each command branch is a function from the loaded state to a
`CmdResult` recording the exit code, the resulting state, whether
`save_state` was called, and the message printed.
-/

/-- One lock record, as built in the `claim` branch of `cmd_task`:
`{"task_id": ..., "agent_role": ..., "claimed_at": ..., "expires_at": ...}`. -/
structure Lease where
  task_id : String
  agent_role : String
  claimed_at : Nat
  expires_at : Nat
deriving DecidableEq

/-- The part of the persisted state document the verified commands touch:
`enabled_features` (a JSON list of strings) and `task_locks` (a JSON
object, embedded as an association list in insertion order; dict keys
are unique). The remaining stores (tasks, decisions, phase, ...) are
not read or written by these command branches. -/
structure ProjState where
  enabled_features : List String
  task_locks : List (String × Lease)
deriving DecidableEq

/-- Result of one CLI command invocation: the returned exit code, the
state after the command, whether `save_state` was called, and the
success or error message printed. -/
structure CmdResult where
  exit : Nat
  state : ProjState
  saved : Bool
  msg : String
deriving DecidableEq

/-- The lease duration: `timedelta(minutes=30)`, in minutes. -/
def leaseDuration : Nat := 30

/-- Lookup in the `task_locks` dict: `task_locks[args.id]` / `args.id in task_locks`. -/
def tlLookup (tl : List (String × Lease)) (id : String) : Option Lease :=
  (tl.find? (fun p => p.1 == id)).map (fun p => p.2)

/-- Deletion from the `task_locks` dict: `del task_locks[args.id]`
(dict keys are unique, so removing every pair with this key is the
same as removing the key). -/
def tlErase (tl : List (String × Lease)) (id : String) : List (String × Lease) :=
  tl.filter (fun p => !(p.1 == id))

/-- The holder recorded at claim time: `args.role or "manual"`. Python
`or` takes the default both when `--role` is absent (`None`) and when
it is the empty string (falsy). -/
def roleOrManual (role : Option String) : String :=
  match role with
  | none => "manual"
  | some r => if r = "" then "manual" else r

/-- The fresh lock record built by a successful `claim` at time `now`:
`{"task_id": args.id, "agent_role": args.role or "manual",
"claimed_at": now, "expires_at": now + timedelta(minutes=30)}`. -/
def mkLease (now : Nat) (id : String) (role : Option String) : Lease :=
  { task_id := id, agent_role := roleOrManual role
    claimed_at := now, expires_at := now + leaseDuration }

/-- The `claim` branch of `cmd_task` (nyoworks.py lines 181-198): if
`args.id in task_locks`, print the conflict error naming the current
holder and return 1; otherwise build a fresh lock with
`claimed_at = now`, `expires_at = now + 30min`, store it under
`args.id`, save, and return 0. The branch never reads `expires_at`. -/
def cmd_task_claim (now : Nat) (id : String) (role : Option String) (s : ProjState) : CmdResult :=
  match tlLookup s.task_locks id with
  | some l =>
    { exit := 1, state := s, saved := false
      msg := "Task already claimed by " ++ l.agent_role }
  | none =>
    { exit := 0
      state := { s with task_locks := s.task_locks ++ [(id, mkLease now id role)] }
      saved := true, msg := "Claimed task " ++ id }

/-- The `release` branch of `cmd_task` (lines 200-208): if `args.id`
is not in `task_locks`, print the not-locked error and return 1;
otherwise delete the entry, save, and return 0. No holder or caller
is consulted. -/
def cmd_task_release (id : String) (s : ProjState) : CmdResult :=
  match tlLookup s.task_locks id with
  | none =>
    { exit := 1, state := s, saved := false
      msg := "Task " ++ id ++ " is not locked" }
  | some _ =>
    { exit := 0, state := { s with task_locks := tlErase s.task_locks id }
      saved := true, msg := "Released task " ++ id }

/-- The `unlock` branch of `cmd_task` (lines 220-229): if `args.id` is
in `task_locks`, delete the entry, save, and return 0; otherwise print
the not-locked error and return 1. -/
def cmd_task_unlock (id : String) (s : ProjState) : CmdResult :=
  match tlLookup s.task_locks id with
  | some _ =>
    { exit := 0, state := { s with task_locks := tlErase s.task_locks id }
      saved := true, msg := "Force unlocked task " ++ id }
  | none =>
    { exit := 1, state := s, saved := false
      msg := "Task " ++ id ++ " is not locked" }

/-- The rows listed by the `locks` branch of `cmd_task` (lines 210-218):
`locks.values()`, every entry of the table, with no expiry filter. -/
def list_active (s : ProjState) : List Lease :=
  s.task_locks.map (fun p => p.2)

/-- The `locks` branch as a command: it only reads, never mutates or saves. -/
def cmd_task_locks (s : ProjState) : CmdResult :=
  { exit := 0, state := s, saved := false, msg := "Active Task Locks" }

/-- The hardcoded feature catalog `AVAILABLE_FEATURES`. -/
def AVAILABLE_FEATURES : List String :=
  ["payments", "appointments", "inventory", "crm", "cms",
   "ecommerce", "analytics", "notifications", "audit", "export", "realtime"]

/-- The `enable` branch of `cmd_feature` (lines 255-265): unknown ids
are rejected with exit 1; a known id is appended to `enabled_features`
and saved only when not already present; either way the success
message prints and the exit code is 0. -/
def cmd_feature_enable (id : String) (s : ProjState) : CmdResult :=
  if id ∈ AVAILABLE_FEATURES then
    if id ∈ s.enabled_features then
      { exit := 0, state := s, saved := false
        msg := "Feature " ++ id ++ " enabled" }
    else
      { exit := 0
        state := { s with enabled_features := s.enabled_features ++ [id] }
        saved := true, msg := "Feature " ++ id ++ " enabled" }
  else
    { exit := 1, state := s, saved := false, msg := "Unknown feature: " ++ id }

/-- The `disable` branch of `cmd_feature` (lines 267-273): no catalog
check; if the id is currently enabled it is removed (`list.remove`,
first occurrence) and the state saved, otherwise nothing happens; the
success message prints and the exit code is 0 in every case. -/
def cmd_feature_disable (id : String) (s : ProjState) : CmdResult :=
  if id ∈ s.enabled_features then
    { exit := 0
      state := { s with enabled_features := s.enabled_features.erase id }
      saved := true, msg := "Feature " ++ id ++ " disabled" }
  else
    { exit := 0, state := s, saved := false, msg := "Feature " ++ id ++ " disabled" }

/-! File-system trace model for `save_state` (lines 40-44). A save is
embedded as the sequence of file-system effects it performs; the file
system is an association list from path to content. `open(path, "w")`
truncates the file in place, then `json.dump` writes the serialized
state into it. -/

/-- The path written by `save_state`: `.nyoworks/state.json` under the
working directory. -/
def statePath : String := ".nyoworks/state.json"

/-- A primitive file-system effect. -/
inductive FsOp where
  | truncate (path : String)
  | write (path : String) (data : String)
  | rename (src : String) (dst : String)
deriving DecidableEq

/-- Set the content of a path. -/
def fsWrite (fs : List (String × String)) (p d : String) : List (String × String) :=
  (p, d) :: fs.filter (fun q => !(q.1 == p))

/-- Read the content of a path. -/
def fsRead (fs : List (String × String)) (p : String) : Option String :=
  (fs.find? (fun q => q.1 == p)).map (fun q => q.2)

/-- Remove a path. -/
def fsRemove (fs : List (String × String)) (p : String) : List (String × String) :=
  fs.filter (fun q => !(q.1 == p))

/-- Apply one effect to the file system. -/
def applyOp (fs : List (String × String)) : FsOp → List (String × String)
  | FsOp.truncate p => fsWrite fs p ""
  | FsOp.write p d => fsWrite fs p d
  | FsOp.rename src dst =>
    match fsRead fs src with
    | some d => fsWrite (fsRemove fs src) dst d
    | none => fs

/-- Apply a sequence of effects. -/
def applyOps (fs : List (String × String)) (ops : List FsOp) : List (String × String) :=
  ops.foldl applyOp fs

/-- The effect trace of `save_state(state)` serializing to `data`:
`open(state_file, "w")` truncates `.nyoworks/state.json` in place,
then `json.dump` writes `data` into it. No temporary path is touched
and no rename happens. -/
def save_state_ops (data : String) : List FsOp :=
  [FsOp.truncate statePath, FsOp.write statePath data]

/-- Does this effect involve a rename? -/
def isRenameOp : FsOp → Bool
  | FsOp.rename _ _ => true
  | _ => false

/-- The path an effect touches (for a rename, its destination). -/
def opPath : FsOp → String
  | FsOp.truncate p => p
  | FsOp.write p _ => p
  | FsOp.rename _ dst => dst

/-! Sample states used to instantiate the theorems. -/

/-- A state with no locks and no features. -/
def stEmpty : ProjState := { enabled_features := [], task_locks := [] }

/-- A lock on TASK-001 taken by backend-agent at minute 0, expiring at minute 30. -/
def leaseBackend : Lease :=
  { task_id := "TASK-001", agent_role := "backend-agent"
    claimed_at := 0, expires_at := leaseDuration }

/-- A state in which TASK-001 is locked by backend-agent. -/
def stLocked : ProjState :=
  { enabled_features := [], task_locks := [("TASK-001", leaseBackend)] }

/-- A state in which the payments feature is enabled. -/
def stFeat : ProjState := { enabled_features := ["payments"], task_locks := [] }

/-! Helper lemmas about the lease table. -/

/-- Looking up a key just appended to a table that did not contain it
finds the appended record. -/
theorem tlLookup_append_single (tl : List (String × Lease)) (id : String) (l : Lease)
    (h : tlLookup tl id = none) :
    tlLookup (tl ++ [(id, l)]) id = some l := by
  have hn : tl.find? (fun p => p.1 == id) = none := by
    rcases hf : tl.find? (fun p => p.1 == id) with _ | p
    · exact hf
    · rw [tlLookup, hf] at h
      simp at h
  rw [tlLookup, List.find?_append, hn]
  simp [List.find?]

/-- After deleting a key, looking it up finds nothing. -/
theorem tlLookup_erase_self (tl : List (String × Lease)) (id : String) :
    tlLookup (tlErase tl id) id = none := by
  have hn : (tlErase tl id).find? (fun p => p.1 == id) = none := by
    rw [List.find?_eq_none]
    intro x hx
    rw [tlErase, List.mem_filter] at hx
    simpa using hx.2
  rw [tlLookup, hn]
  rfl

/-- A claim that returned 0 found no existing entry for the task. -/
theorem claim_exit_zero {now : Nat} {id : String} {role : Option String} {s : ProjState}
    (h : (cmd_task_claim now id role s).exit = 0) :
    tlLookup s.task_locks id = none := by
  rcases hl : tlLookup s.task_locks id with _ | l
  · rfl
  · exfalso
    simp [cmd_task_claim, hl] at h

/-- The full result of a claim when no entry for the task exists. -/
theorem claim_success_eq {now : Nat} {id : String} {role : Option String} {s : ProjState}
    (h : tlLookup s.task_locks id = none) :
    cmd_task_claim now id role s =
      { exit := 0
        state := { s with task_locks := s.task_locks ++ [(id, mkLease now id role)] }
        saved := true, msg := "Claimed task " ++ id } := by
  simp [cmd_task_claim, h]

/-- The full result of a claim when an entry for the task exists. -/
theorem claim_conflict_eq (now : Nat) (id : String) (role : Option String) (s : ProjState)
    (l : Lease) (h : tlLookup s.task_locks id = some l) :
    cmd_task_claim now id role s =
      { exit := 1, state := s, saved := false
        msg := "Task already claimed by " ++ l.agent_role } := by
  simp [cmd_task_claim, h]

/-- C1: the claim says that when the existing lease for a task has
expired (`expires_at` at or before now) a new claim succeeds and
replaces it. The `claim` branch only tests key presence
(`if args.id in task_locks`) and never consults `expires_at`: with
TASK-001 held by backend-agent and expired at minute 30, a fresh claim
at minute 100 still fails with the conflict error and leaves the state
unchanged and unsaved, contradicting the claim. The stored, otherwise
unused `expires_at` field and the spec's expiry-supersession contract
mark this as a defect of the code. -/
theorem claim_rejects_expired_lease :
    leaseBackend.expires_at ≤ 100 ∧
    cmd_task_claim 100 "TASK-001" (some "qa-agent") stLocked =
      { exit := 1, state := stLocked, saved := false
        msg := "Task already claimed by backend-agent" } := by
  constructor
  · decide
  · rfl

/-- C2: while an entry for the task is present and unexpired, a new
claim returns exit 1 with an error naming the current holder, the
state is returned unchanged and `save_state` is not called; in
particular a second claim right after a successful one, before the 30
minute lease duration has elapsed, fails the same way with the first
claim's recorded holder named. -/
theorem claim_conflict_on_unexpired (s : ProjState) (now now2 : Nat) (id : String)
    (role role2 : Option String) (l : Lease) :
    (tlLookup s.task_locks id = some l → now < l.expires_at →
      cmd_task_claim now id role s =
        { exit := 1, state := s, saved := false
          msg := "Task already claimed by " ++ l.agent_role }) ∧
    ((cmd_task_claim now id role s).exit = 0 → now2 < now + leaseDuration →
      cmd_task_claim now2 id role2 (cmd_task_claim now id role s).state =
        { exit := 1, state := (cmd_task_claim now id role s).state, saved := false
          msg := "Task already claimed by " ++ roleOrManual role }) := by
  constructor
  · intro h _
    simp [cmd_task_claim, h]
  · intro h0 _
    have hn : tlLookup s.task_locks id = none := claim_exit_zero h0
    have hfound := tlLookup_append_single s.task_locks id (mkLease now id role) hn
    rw [claim_success_eq hn]
    have h2 := claim_conflict_eq now2 id role2
      { s with task_locks := s.task_locks ++ [(id, mkLease now id role)] }
      (mkLease now id role) hfound
    simpa [mkLease] using h2

/-- Witness for C2 at concrete inputs: a claim on locked TASK-001 at
minute 5 fails naming backend-agent, and a second claim of TASK-002 at
minute 10 directly after a successful one at minute 5 fails naming the
first holder. -/
theorem claim_conflict_on_unexpired_witness :
    cmd_task_claim 5 "TASK-001" (some "qa-agent") stLocked =
      { exit := 1, state := stLocked, saved := false
        msg := "Task already claimed by backend-agent" } ∧
    cmd_task_claim 10 "TASK-002" (some "qa-agent")
        (cmd_task_claim 5 "TASK-002" (some "backend-agent") stEmpty).state =
      { exit := 1, state := (cmd_task_claim 5 "TASK-002" (some "backend-agent") stEmpty).state
        saved := false, msg := "Task already claimed by " ++ roleOrManual (some "backend-agent") } :=
  ⟨(claim_conflict_on_unexpired stLocked 5 0 "TASK-001" (some "qa-agent") none leaseBackend).1
      (by decide) (by decide),
   (claim_conflict_on_unexpired stEmpty 5 10 "TASK-002" (some "backend-agent") (some "qa-agent")
      leaseBackend).2 (by decide) (by decide)⟩

/-- C3 counterexample: claiming TASK-007 with an explicitly supplied
empty-string holder succeeds, yet the created lease records "manual"
rather than the supplied holder, because `args.role or "manual"` also
replaces the falsy empty string; so "holder equal to the supplied
holder, or manual when no holder was supplied" is false here. -/
theorem claim_empty_role_cex :
    (cmd_task_claim 0 "TASK-007" (some "") stEmpty).exit = 0 ∧
    (tlLookup (cmd_task_claim 0 "TASK-007" (some "") stEmpty).state.task_locks
        "TASK-007").map Lease.agent_role ≠ some "" ∧
    (tlLookup (cmd_task_claim 0 "TASK-007" (some "") stEmpty).state.task_locks
        "TASK-007").map Lease.agent_role = some "manual" := by
  decide

/-- C3 (amended): for every successful claim, the table afterwards
holds a lease for the task whose holder is the supplied holder when it
is a non-empty string and "manual" when the holder is absent or empty
(the `args.role or "manual"` defaulting, `roleOrManual`), whose
acquisition time is the claim time, and whose expiry equals its
acquisition time plus exactly 30 minutes. -/
theorem claim_success_fields (s : ProjState) (now : Nat) (id : String) (role : Option String)
    (h : (cmd_task_claim now id role s).exit = 0) :
    ∃ l : Lease,
      tlLookup (cmd_task_claim now id role s).state.task_locks id = some l ∧
      l.agent_role = roleOrManual role ∧
      l.claimed_at = now ∧
      l.expires_at = l.claimed_at + leaseDuration := by
  have hn : tlLookup s.task_locks id = none := claim_exit_zero h
  rw [claim_success_eq hn]
  exact ⟨mkLease now id role, tlLookup_append_single s.task_locks id (mkLease now id role) hn,
    rfl, rfl, rfl⟩

/-- Witness for C3 (amended) at a concrete input: a successful claim of
T1 with holder qa-agent at minute 3 stores that holder and a 30 minute
expiry. -/
theorem claim_success_fields_witness :
    ∃ l : Lease,
      tlLookup (cmd_task_claim 3 "T1" (some "qa-agent") stEmpty).state.task_locks "T1" = some l ∧
      l.agent_role = roleOrManual (some "qa-agent") ∧
      l.claimed_at = 3 ∧
      l.expires_at = l.claimed_at + leaseDuration :=
  claim_success_fields stEmpty 3 "T1" (some "qa-agent") (by decide)

/-- C4: `release` returns exit 1 with the not-locked error exactly when
the table has no entry for the task, leaving the state unchanged and
unsaved; when an entry exists — whatever lease record it holds, with
no holder or caller check — it deletes the entry, saves, and returns
exit 0. -/
theorem release_semantics (s : ProjState) (id : String) :
    ((cmd_task_release id s).exit = 1 ↔ tlLookup s.task_locks id = none) ∧
    (tlLookup s.task_locks id = none →
      cmd_task_release id s =
        { exit := 1, state := s, saved := false
          msg := "Task " ++ id ++ " is not locked" }) ∧
    (∀ l : Lease, tlLookup s.task_locks id = some l →
      cmd_task_release id s =
        { exit := 0, state := { s with task_locks := tlErase s.task_locks id }
          saved := true, msg := "Released task " ++ id }) := by
  rcases hl : tlLookup s.task_locks id with _ | l
  · refine ⟨by simp [cmd_task_release, hl], fun _ => by simp [cmd_task_release, hl], ?_⟩
    intro l hsome
    simp at hsome
  · refine ⟨by simp [cmd_task_release, hl], ?_, ?_⟩
    · intro hnone
      simp at hnone
    · intro l2 _
      simp [cmd_task_release, hl]

/-- Witness for C4 at concrete inputs: releasing locked TASK-001
removes the entry and returns 0; releasing it in the empty state fails
with exit 1 and no change. -/
theorem release_semantics_witness :
    cmd_task_release "TASK-001" stLocked =
      { exit := 0, state := { stLocked with task_locks := tlErase stLocked.task_locks "TASK-001" }
        saved := true, msg := "Released task " ++ "TASK-001" } ∧
    cmd_task_release "TASK-001" stEmpty =
      { exit := 1, state := stEmpty, saved := false
        msg := "Task " ++ "TASK-001" ++ " is not locked" } :=
  ⟨(release_semantics stLocked "TASK-001").2.2 leaseBackend (by decide),
   (release_semantics stEmpty "TASK-001").2.1 (by decide)⟩

/-- C5: `unlock` has the same exit code, resulting state, and save
behavior as `release` on every state and task id (only the printed
message differs), and in particular claiming a task, force-unlocking
it, and claiming it again with a different holder both succeed. -/
theorem unlock_equals_release (s : ProjState) (id : String) :
    ((cmd_task_unlock id s).exit = (cmd_task_release id s).exit ∧
     (cmd_task_unlock id s).state = (cmd_task_release id s).state ∧
     (cmd_task_unlock id s).saved = (cmd_task_release id s).saved) ∧
    (∀ (now now2 : Nat) (hA hB : String),
      (cmd_task_claim now id (some hA) s).exit = 0 →
      (cmd_task_unlock id (cmd_task_claim now id (some hA) s).state).exit = 0 ∧
      (cmd_task_claim now2 id (some hB)
        (cmd_task_unlock id (cmd_task_claim now id (some hA) s).state).state).exit = 0) := by
  constructor
  · rcases hl : tlLookup s.task_locks id with _ | l <;>
      simp [cmd_task_unlock, cmd_task_release, hl]
  · intro now now2 hA hB h0
    have hn : tlLookup s.task_locks id = none := claim_exit_zero h0
    have hfound := tlLookup_append_single s.task_locks id (mkLease now id (some hA)) hn
    rw [claim_success_eq hn]
    constructor
    · simp [cmd_task_unlock, hfound]
    · have herase :=
        tlLookup_erase_self (s.task_locks ++ [(id, mkLease now id (some hA))]) id
      simp [cmd_task_unlock, hfound, cmd_task_claim, herase]

/-- Witness for C5 at concrete inputs: unlock agrees with release on
the locked sample state, and the claim-A, force-unlock, claim-B
scenario succeeds end to end on T5. -/
theorem unlock_equals_release_witness :
    (cmd_task_unlock "TASK-001" stLocked).exit = (cmd_task_release "TASK-001" stLocked).exit ∧
    (cmd_task_unlock "T5" (cmd_task_claim 0 "T5" (some "A") stEmpty).state).exit = 0 ∧
    (cmd_task_claim 40 "T5" (some "B")
      (cmd_task_unlock "T5" (cmd_task_claim 0 "T5" (some "A") stEmpty).state).state).exit = 0 :=
  ⟨(unlock_equals_release stLocked "TASK-001").1.1,
   ((unlock_equals_release stEmpty "T5").2 0 40 "A" "B" (by decide)).1,
   ((unlock_equals_release stEmpty "T5").2 0 40 "A" "B" (by decide)).2⟩

/-- C6: the `locks` listing shows a lease exactly when an entry holding
it is present in the table — with no expiry filtering, since
membership does not depend on any time — and the command neither
mutates the state nor saves, so expired entries are never pruned. -/
theorem locks_lists_all_entries (s : ProjState) (l : Lease) :
    (l ∈ list_active s ↔ ∃ t : String, (t, l) ∈ s.task_locks) ∧
    (cmd_task_locks s).state = s ∧
    (cmd_task_locks s).saved = false ∧
    (cmd_task_locks s).exit = 0 := by
  refine ⟨?_, rfl, rfl, rfl⟩
  rw [list_active, List.mem_map]
  constructor
  · rintro ⟨⟨t, l2⟩, hm, rfl⟩
    exact ⟨t, hm⟩
  · rintro ⟨t, hm⟩
    exact ⟨(t, l), hm, rfl⟩

/-- Witness for C6 at a concrete input: the expired backend-agent lease
(expiry minute 30, e.g. viewed at minute 100) is still listed for the
locked sample state, and listing changes nothing. -/
theorem locks_lists_all_entries_witness :
    leaseBackend ∈ list_active stLocked ∧
    leaseBackend.expires_at ≤ 100 ∧
    (cmd_task_locks stLocked).state = stLocked :=
  ⟨(locks_lists_all_entries stLocked leaseBackend).1.mpr ⟨"TASK-001", by decide⟩,
   by decide,
   (locks_lists_all_entries stLocked leaseBackend).2.1⟩

/-- C7 counterexample: claiming TASK-008 with the supplied holder being
the empty string succeeds, but the subsequent listing holds no entry
whose task is TASK-008 and whose holder is that supplied empty string
— the single listed holder is "manual" — so the round-trip property
fails as stated for the holder argument empty string. -/
theorem roundtrip_empty_role_cex :
    (cmd_task_claim 0 "TASK-008" (some "") stEmpty).exit = 0 ∧
    ((list_active (cmd_task_claim 0 "TASK-008" (some "") stEmpty).state).filter
      (fun l => l.task_id == "TASK-008" && l.agent_role == "")) = [] ∧
    (list_active (cmd_task_claim 0 "TASK-008" (some "") stEmpty).state).map
      Lease.agent_role = ["manual"] := by
  decide

/-- C7 (amended): for every task id and non-empty holder, a successful
claim followed immediately by the `locks` listing yields an entry for
that task whose holder is the supplied holder and whose expiry equals
its acquisition time plus exactly 30 minutes. -/
theorem claim_locks_roundtrip (s : ProjState) (now : Nat) (t h : String)
    (hne : h ≠ "") (hs : (cmd_task_claim now t (some h) s).exit = 0) :
    ∃ l ∈ list_active (cmd_task_claim now t (some h) s).state,
      l.task_id = t ∧ l.agent_role = h ∧ l.expires_at = l.claimed_at + leaseDuration := by
  have hn : tlLookup s.task_locks t = none := claim_exit_zero hs
  rw [claim_success_eq hn]
  refine ⟨mkLease now t (some h), ?_, rfl, ?_, rfl⟩
  · simp [list_active]
  · simp [mkLease, roleOrManual, hne]

/-- Witness for C7 (amended) at a concrete input: claiming T9 as
qa-agent at minute 2 and listing yields the matching entry. -/
theorem claim_locks_roundtrip_witness :
    ∃ l ∈ list_active (cmd_task_claim 2 "T9" (some "qa-agent") stEmpty).state,
      l.task_id = "T9" ∧ l.agent_role = "qa-agent" ∧
      l.expires_at = l.claimed_at + leaseDuration :=
  claim_locks_roundtrip stEmpty 2 "T9" "qa-agent" (by decide) (by decide)

/-- C8: the claim says `save_state` is crash-atomic via a temporary
file and an atomic rename. The code opens `.nyoworks/state.json`
itself in "w" mode — truncating it in place — and then writes the new
document into it: after the first effect of the trace (the truncating
open) the store holds the empty string, which is neither the old
document OLDSTATE nor the new document NEWSTATE, so a crash at that
point leaves a corrupt store; and the trace contains no rename and
touches no path other than the state file, so the claimed
temp-file-plus-rename scheme is absent. -/
theorem save_state_not_atomic :
    fsRead (applyOps [(statePath, "OLDSTATE")] ((save_state_ops "NEWSTATE").take 1)) statePath
      = some "" ∧
    ("" : String) ≠ "OLDSTATE" ∧
    ("" : String) ≠ "NEWSTATE" ∧
    (save_state_ops "NEWSTATE").all
      (fun op => !(isRenameOp op) && (opPath op == statePath)) = true := by
  refine ⟨rfl, by decide, by decide, rfl⟩

/-- C9: for every feature id in the catalog, enabling it while it is
already enabled returns exit 0 with the state unchanged and no save;
consequently enabling never pushes the number of occurrences of the id
in enabled_features above one. -/
theorem enable_idempotent_nodup (s : ProjState) (f : String)
    (hf : f ∈ AVAILABLE_FEATURES) :
    (f ∈ s.enabled_features →
      cmd_feature_enable f s =
        { exit := 0, state := s, saved := false
          msg := "Feature " ++ f ++ " enabled" }) ∧
    (s.enabled_features.count f ≤ 1 →
      (cmd_feature_enable f s).state.enabled_features.count f ≤ 1) := by
  constructor
  · intro hm
    simp [cmd_feature_enable, hf, hm]
  · intro hc
    by_cases hm : f ∈ s.enabled_features
    · simpa [cmd_feature_enable, hf, hm] using hc
    · have h0 : s.enabled_features.count f = 0 := List.count_eq_zero_of_not_mem hm
      simp [cmd_feature_enable, hf, hm, h0]

/-- Witness for C9 at a concrete input: enabling payments while it is
already enabled changes nothing, succeeds, and keeps its count at one. -/
theorem enable_idempotent_nodup_witness :
    cmd_feature_enable "payments" stFeat =
      { exit := 0, state := stFeat, saved := false
        msg := "Feature " ++ "payments" ++ " enabled" } ∧
    (cmd_feature_enable "payments" stFeat).state.enabled_features.count "payments" ≤ 1 :=
  ⟨(enable_idempotent_nodup stFeat "payments" (by decide)).1 (by decide),
   (enable_idempotent_nodup stFeat "payments" (by decide)).2 (by decide)⟩

/-- C10: `disable` returns exit 0 on every input — even for ids absent
from the catalog — and when the id is not currently enabled it leaves
the state unchanged and does not save; by contrast `enable` rejects an
id absent from the catalog with exit 1, no state change, and no save. -/
theorem disable_never_fails (s : ProjState) (f : String) :
    (cmd_feature_disable f s).exit = 0 ∧
    (f ∉ s.enabled_features →
      cmd_feature_disable f s =
        { exit := 0, state := s, saved := false
          msg := "Feature " ++ f ++ " disabled" }) ∧
    (f ∉ AVAILABLE_FEATURES →
      cmd_feature_enable f s =
        { exit := 1, state := s, saved := false
          msg := "Unknown feature: " ++ f }) := by
  refine ⟨?_, ?_, ?_⟩
  · by_cases hm : f ∈ s.enabled_features <;> simp [cmd_feature_disable, hm]
  · intro hm
    simp [cmd_feature_disable, hm]
  · intro hk
    simp [cmd_feature_enable, hk]

/-- Witness for C10 at concrete inputs: disabling the unknown id
nosuch on the sample feature state succeeds as a no-op, and enabling
it fails with the validation error. -/
theorem disable_never_fails_witness :
    (cmd_feature_disable "nosuch" stFeat).exit = 0 ∧
    cmd_feature_disable "nosuch" stFeat =
      { exit := 0, state := stFeat, saved := false
        msg := "Feature " ++ "nosuch" ++ " disabled" } ∧
    cmd_feature_enable "nosuch" stFeat =
      { exit := 1, state := stFeat, saved := false
        msg := "Unknown feature: " ++ "nosuch" } :=
  ⟨(disable_never_fails stFeat "nosuch").1,
   (disable_never_fails stFeat "nosuch").2.1 (by decide),
   (disable_never_fails stFeat "nosuch").2.2 (by decide)⟩
